import Mathlib

/-!
Verification of the SuperMail unified email client against its design
specification.

The development shallowly embeds the parts of the TypeScript source that the
verified claims concern:

* the error taxonomy and the `normalizeError` classifier (src/errors.ts),
* the facade constructor dispatch (src/SuperMail.ts),
* the Microsoft Graph adapter's archive/trash folder resolution, category
  (label) resolution for add/remove, recipient conversion, and preset-color
  mapping (src/providers/microsoft.ts),
* the Gmail adapter's message conversion, address parsing, reply construction
  and palette-color mapping (src/providers/gmail.ts),
* the IMAP adapter's `createLabel` (src/providers/imap.ts).

JavaScript-specific semantics that the control flow depends on are modelled
explicitly: `undefined`/missing fields as `Option`, truthiness of the `||`
operator, strict equality (`===`) between a number and a string being false,
`parseInt` prefix parsing, `Array.prototype.filter(Boolean)`, and the fact
that property access on `null`/`undefined` throws a TypeError.

Network transports are abstracted: an adapter operation is modelled as the
pure function from the backend data it reads (folder lists, category lists,
raw backend records) to the request it emits or the error it raises.  Fields
of the unified message record that no claim mentions (body, htmlBody,
attachments, bcc, date) are elided from the embedding.
-/

namespace Supermail

/-- A JavaScript primitive value as it occurs in the error objects inspected
by `normalizeError`: either a number or a string.  Strict equality between a
`vnum` and a `vstr` is false, which the classifier's `===` checks rely on. -/
inductive JsVal
  | vnum (n : Int)
  | vstr (s : String)
deriving DecidableEq, Repr

/-- ASCII lower-casing of one character, the fragment of
`String.prototype.toLowerCase` exercised by the source's inputs (hex color
strings and header names). -/
def asciiToLower (c : Char) : Char :=
  if 65 ≤ c.toNat ∧ c.toNat ≤ 90 then Char.ofNat (c.toNat + 32) else c

/-- `s.toLowerCase()` (executable in the kernel, unlike `String.toLower`). -/
def jsToLower (s : String) : String := ⟨s.data.map asciiToLower⟩

/-- The whitespace class trimmed by `String.prototype.trim` (ASCII part). -/
def isJsSpace (c : Char) : Bool :=
  c = ' ' || c = '\t' || c = '\n' || c = '\r'

/-- `s.trim()`: strip leading and trailing whitespace. -/
def jsTrim (s : String) : String :=
  ⟨((s.data.dropWhile isJsSpace).reverse.dropWhile isJsSpace).reverse⟩

/-- `s.startsWith(pre)`. -/
def jsStartsWith (s pre : String) : Bool := pre.data.isPrefixOf s.data

/-- JavaScript truthiness of a possibly-missing value: `undefined`, `0` and
the empty string are falsy. -/
def jsTruthy : Option JsVal → Bool
  | none => false
  | some (.vnum n) => n != 0
  | some (.vstr s) => s != ""

/-- The JavaScript `a || b` operator on possibly-missing values. -/
def jsOr (a b : Option JsVal) : Option JsVal :=
  if jsTruthy a then a else b

/-- The JavaScript `s || d` operator specialised to strings: the empty string
is falsy and is replaced by the default. -/
def jsOrStr (x : Option String) (d : String) : String :=
  match x with
  | some s => if s = "" then d else s
  | none => d

/-- Decimal digit-prefix value used by `jsParseInt`; `none` when the first
character is not a digit (parseInt returns NaN then). -/
def digitsVal (cs : List Char) : Option Nat :=
  let ds := cs.takeWhile (fun c => c.isDigit)
  if ds.isEmpty then none
  else some (ds.foldl (fun a c => a * 10 + (c.toNat - 48)) 0)

/-- JavaScript `parseInt(s)` (radix 10): skip leading whitespace, optional
sign, then the longest digit prefix; `none` models NaN. -/
def jsParseInt (s : String) : Option Int :=
  match (jsTrim s).data with
  | [] => none
  | c :: rest =>
    if c = '-' then (digitsVal rest).map (fun n => -(n : Int))
    else if c = '+' then (digitsVal rest).map (fun n => (n : Int))
    else (digitsVal (c :: rest)).map (fun n => (n : Int))

/-- The fields of a raw backend failure object that `normalizeError` inspects.
`code` may be a number (an HTTP-like status) or a string (a connectivity code
such as ECONNREFUSED, or a Graph error code); the remaining fields flatten the
optional-chaining paths the source reads (`error.response?.status`,
`error.response?.headers?.[...]`, `error.headers?.[...]`,
`error.body?.error?.code`, `error.message`). -/
structure RawError where
  code : Option JsVal := none
  statusCode : Option Int := none
  responseStatus : Option Int := none
  responseRetryAfter : Option String := none
  headersRetryAfter : Option String := none
  bodyErrorCode : Option String := none
  message : Option String := none
deriving DecidableEq, Repr

/-- The argument actually handed to `normalizeError` at a call site: either a
JavaScript `null`/`undefined` (on which any property access throws a
TypeError) or a proper error object. -/
inductive RawInput
  | nullish
  | obj (e : RawError)
deriving DecidableEq, Repr

/-- A thrown `Error` object with only a message, as produced by
`new Error(msg)` in the source. -/
def mkJsError (msg : String) : RawError := { message := some msg }

/-- The closed set of error kinds of the taxonomy (enum ErrorCode in
src/errors.ts). -/
inductive ErrorCode
  | AUTH_FAILED
  | TOKEN_EXPIRED
  | INVALID_CREDENTIALS
  | RATE_LIMIT_EXCEEDED
  | QUOTA_EXCEEDED
  | NOT_FOUND
  | INVALID_EMAIL_ID
  | SEND_FAILED
  | OPERATION_FAILED
  | NETWORK_ERROR
  | TIMEOUT
  | INVALID_INPUT
  | MISSING_REQUIRED_FIELD
  | UNKNOWN_ERROR
deriving DecidableEq, Repr

/-- A classified error (class SuperMailError): kind, human message, backend
tag, the retry hint carried by RateLimitError, and the original raw failure
kept for diagnostics. -/
structure SuperMailError where
  code : ErrorCode
  message : String
  provider : Option String := none
  retryAfter : Option Int := none
  originalError : Option RawError := none
deriving DecidableEq, Repr

/-- The status value the Gmail branch of `normalizeError` reads:
`error.code || error.response?.status`. -/
def gmailStatusOf (e : RawError) : Option JsVal :=
  jsOr e.code (e.responseStatus.map JsVal.vnum)

/-- The status value the Microsoft branch reads:
`error.statusCode || error.code`. -/
def msStatusOf (e : RawError) : Option JsVal :=
  jsOr (e.statusCode.map JsVal.vnum) e.code

/-- The error-code value the Microsoft branch reads:
`error.code || error.body?.error?.code`. -/
def msErrorCodeOf (e : RawError) : Option JsVal :=
  jsOr e.code (e.bodyErrorCode.map JsVal.vstr)

/-- The `retryAfter ? parseInt(retryAfter) : undefined` computation applied to
a retry-after header value. -/
def jsRetryAfter (hdr : Option String) : Option Int :=
  match hdr with
  | some s => if s = "" then none else jsParseInt s
  | none => none

/-- The Gmail-specific status table of `normalizeError`: first match wins,
`none` when no Gmail rule fires and control falls through. -/
def gmailRule (e : RawError) : Option SuperMailError :=
  if gmailStatusOf e = some (JsVal.vnum 401) then
    some { code := .AUTH_FAILED,
           message := "Gmail authentication failed. Token may be expired or invalid.",
           provider := some "gmail", originalError := some e }
  else if gmailStatusOf e = some (JsVal.vnum 403) then
    some { code := .QUOTA_EXCEEDED,
           message := "Gmail quota exceeded or insufficient permissions.",
           provider := some "gmail", originalError := some e }
  else if gmailStatusOf e = some (JsVal.vnum 404) then
    some { code := .NOT_FOUND, message := "Email not found in Gmail.",
           provider := some "gmail", originalError := some e }
  else if gmailStatusOf e = some (JsVal.vnum 429) then
    some { code := .RATE_LIMIT_EXCEEDED, message := "Gmail rate limit exceeded.",
           provider := some "gmail",
           retryAfter := jsRetryAfter e.responseRetryAfter,
           originalError := some e }
  else none

/-- The Microsoft-specific status/code table of `normalizeError`. -/
def msRule (e : RawError) : Option SuperMailError :=
  if msStatusOf e = some (JsVal.vnum 401) ∨
     msErrorCodeOf e = some (JsVal.vstr "InvalidAuthenticationToken") then
    some { code := .AUTH_FAILED,
           message := "Microsoft authentication failed. Token may be expired or invalid.",
           provider := some "microsoft", originalError := some e }
  else if msStatusOf e = some (JsVal.vnum 403) ∨
          msErrorCodeOf e = some (JsVal.vstr "Forbidden") then
    some { code := .QUOTA_EXCEEDED,
           message := "Microsoft insufficient permissions or quota exceeded.",
           provider := some "microsoft", originalError := some e }
  else if msStatusOf e = some (JsVal.vnum 404) ∨
          msErrorCodeOf e = some (JsVal.vstr "ResourceNotFound") then
    some { code := .NOT_FOUND, message := "Email not found in Microsoft.",
           provider := some "microsoft", originalError := some e }
  else if msStatusOf e = some (JsVal.vnum 429) ∨
          msErrorCodeOf e = some (JsVal.vstr "TooManyRequests") then
    some { code := .RATE_LIMIT_EXCEEDED, message := "Microsoft rate limit exceeded.",
           provider := some "microsoft",
           retryAfter := jsRetryAfter e.headersRetryAfter,
           originalError := some e }
  else none

/-- The low-level connectivity check of `normalizeError`:
`error.code === 'ECONNREFUSED' || 'ENOTFOUND' || 'ETIMEDOUT'`. -/
def isNetworkCode (c : Option JsVal) : Bool :=
  c == some (JsVal.vstr "ECONNREFUSED") || c == some (JsVal.vstr "ENOTFOUND") ||
    c == some (JsVal.vstr "ETIMEDOUT")

/-- Template-literal interpolation of a possibly-undefined message, as in
the source's network-error message. -/
def jsMessageText (m : Option String) : String :=
  match m with
  | some s => s
  | none => "undefined"

/-- The fallback message computation `error.message || 'An unknown error
occurred'`. -/
def jsMessageOrDefault (m : Option String) : String :=
  match m with
  | some s => if s = "" then "An unknown error occurred" else s
  | none => "An unknown error occurred"

/-- The provider-specific stage of `normalizeError`: the Gmail table for the
gmail tag, the Microsoft table for the microsoft tag, nothing otherwise (the
two guards are mutually exclusive, so the sequential source blocks and this
conditional agree). -/
def providerRule (e : RawError) (provider : String) : Option SuperMailError :=
  if provider = "gmail" then gmailRule e
  else if provider = "microsoft" then msRule e
  else none

/-- The body of `normalizeError` on a proper (non-null) error object:
provider-specific tables first, then the connectivity check, then the
unknown-error fallback. -/
def normalizeErrorObj (e : RawError) (provider : String) : SuperMailError :=
  match providerRule e provider with
  | some r => r
  | none =>
    if isNetworkCode e.code then
      { code := .NETWORK_ERROR,
        message := "Network error: " ++ jsMessageText e.message,
        provider := some provider, originalError := some e }
    else
      { code := .UNKNOWN_ERROR, message := jsMessageOrDefault e.message,
        provider := some provider, originalError := some e }

/-- `normalizeError(error, provider)` as called: on a `null`/`undefined`
argument the very first property access (`error.code`) throws a TypeError,
modelled as `Except.error ()`; on an object it returns the classified
error. -/
def normalizeError : RawInput → String → Except Unit SuperMailError
  | .nullish, _ => .error ()
  | .obj e, p => .ok (normalizeErrorObj e p)

/-- Unified address record (interface EmailAddress). -/
structure EmailAddress where
  email : String
  name : Option String := none
deriving DecidableEq, Repr

/-- Unified label/category record (interface EmailLabel).  `labelType` embeds
the source field `type` (values "system" or "user"). -/
structure EmailLabel where
  id : String
  name : String
  color : Option String := none
  labelType : Option String := none
deriving DecidableEq, Repr

/-- Unified folder record (interface EmailFolder). -/
structure EmailFolder where
  id : String
  name : String
  parentId : Option String := none
  unreadCount : Option Nat := none
  totalCount : Option Nat := none
deriving DecidableEq, Repr

/-- Unified message record (interface EmailMessage); `fromAddr` and `toAddrs`
embed the source fields `from` and `to` (Lean reserved words).  The body,
htmlBody, attachments, bcc and date fields are elided: no verified claim
mentions them. -/
structure EmailMessage where
  id : Option String := none
  threadId : Option String := none
  subject : String := ""
  fromAddr : Option EmailAddress := none
  toAddrs : List EmailAddress := []
  cc : Option (List EmailAddress) := none
  isRead : Option Bool := none
  labels : Option (List String) := none
deriving DecidableEq, Repr

/-- Send options (interface SendEmailOptions); `toAddrs` embeds the source
field `to`; fields not used by the verified claims (bcc, htmlBody,
attachments, replyTo) are elided. -/
structure SendEmailOptions where
  subject : String := ""
  toAddrs : List EmailAddress := []
  cc : Option (List EmailAddress) := none
  body : String := ""
deriving DecidableEq, Repr

/-- Options of addLabels (interface AddLabelsOptions). -/
structure AddLabelsOptions where
  emailId : String
  labelIds : List String
deriving DecidableEq, Repr

/-- Options of removeLabels (interface RemoveLabelsOptions). -/
structure RemoveLabelsOptions where
  emailId : String
  labelIds : List String
deriving DecidableEq, Repr

/-- Options of moveToFolder (interface MoveEmailOptions). -/
structure MoveEmailOptions where
  emailId : String
  folderId : String
deriving DecidableEq, Repr

/-- The configuration record as the facade constructor inspects it: only the
`type` discriminant is read by the dispatch switch; the credential payloads
are elided. -/
structure EmailProviderConfig where
  type : String
deriving DecidableEq, Repr

/-- The adapters the facade can instantiate (src/SuperMail.ts imports only
GmailProvider and MicrosoftProvider). -/
inductive ProviderKind
  | gmail
  | microsoft
deriving DecidableEq, Repr

/-- A thrown JavaScript value: either a plain `Error` (carrying only a
message, no classified kind) or a classified SuperMailError. -/
inductive Thrown
  | plainError (msg : String)
  | classifiedError (e : SuperMailError)
deriving DecidableEq, Repr

/-- `SuperMail.createProvider`, called from the constructor: dispatch on the
`type` discriminant; the default branch throws a plain
`new Error('Unsupported provider type: ...')`. -/
def createProvider (config : EmailProviderConfig) : Except Thrown ProviderKind :=
  if config.type = "gmail" then .ok .gmail
  else if config.type = "microsoft" then .ok .microsoft
  else .error (.plainError ("Unsupported provider type: " ++ config.type))

/-- `MicrosoftProvider.archiveEmail`: resolve the folder named "Archive" from
the folder list and move the message to it; when absent, the thrown
`Error('Archive folder not found')` is caught and routed through
`normalizeError(..., 'microsoft')`.  The network move itself is abstracted as
the emitted move request. -/
def msArchiveEmail (folders : List EmailFolder) (emailId : String) :
    Except SuperMailError MoveEmailOptions :=
  match folders.find? (fun f => f.name == "Archive") with
  | some archiveFolder => .ok { emailId := emailId, folderId := archiveFolder.id }
  | none => .error (normalizeErrorObj (mkJsError "Archive folder not found") "microsoft")

/-- The effect `MicrosoftProvider.trashEmail` performs. -/
inductive TrashAction
  | move (options : MoveEmailOptions)
  | hardDelete (emailId : String)
deriving DecidableEq, Repr

/-- `MicrosoftProvider.trashEmail`: resolve the folder named "Deleted Items"
and move to it; when absent, fall back to `deleteEmail` (hard delete). -/
def msTrashEmail (folders : List EmailFolder) (emailId : String) : TrashAction :=
  match folders.find? (fun f => f.name == "Deleted Items") with
  | some trashFolder => .move { emailId := emailId, folderId := trashFolder.id }
  | none => .hardDelete emailId

/-- `ImapProvider.createLabel`: unconditionally throws a classified
OPERATION_FAILED error; the name and color arguments are ignored. -/
def imapCreateLabel (_nm : String) (_color : Option String) :
    Except SuperMailError EmailLabel :=
  .error { code := .OPERATION_FAILED,
           message := "IMAP does not support creating custom labels. Use folders instead.",
           provider := some "imap" }

/-- `Array.prototype.filter(Boolean)` applied to an array of
string-or-undefined: drops `undefined` and the (falsy) empty string. -/
def jsFilterBoolean (o : Option String) : Option String :=
  match o with
  | some s => if s = "" then none else some s
  | none => none

/-- The category-name resolution shared by `MicrosoftProvider.addLabels` and
`removeLabels`:
`labelIds.map(id => categories.find(c => c.id === id)?.name).filter(Boolean)`. -/
def resolveCategoryNames (categories : List EmailLabel) (labelIds : List String) :
    List String :=
  (labelIds.map (fun id => (categories.find? (fun c => c.id == id)).map
    (fun c => c.name))).filterMap jsFilterBoolean

/-- `MicrosoftProvider.addLabels`: patch the message with the resolved
category names.  The categories argument is the result of the `listLabels`
round trip; the patch itself is abstracted as the emitted name list. -/
def msAddLabels (categories : List EmailLabel) (options : AddLabelsOptions) :
    Except SuperMailError (List String) :=
  .ok (resolveCategoryNames categories options.labelIds)

/-- `MicrosoftProvider.removeLabels`: resolve the ids to names, then patch
the message with its current categories minus the resolved names. -/
def msRemoveLabels (categories : List EmailLabel) (currentCategories : List String)
    (options : RemoveLabelsOptions) : Except SuperMailError (List String) :=
  let categoriesToRemove := resolveCategoryNames categories options.labelIds
  .ok (currentCategories.filter (fun cat => !(categoriesToRemove.contains cat)))

/-- One entry of a Gmail payload header list
(Schema$MessagePartHeader: both fields optional). -/
structure GmailMessagePartHeader where
  name : Option String := none
  value : Option String := none
deriving DecidableEq, Repr

/-- The fields of a raw Gmail backend message record
(Schema$Message) read by the conversion paths under verification; payload
body/attachment parts and internalDate are elided (no claim mentions them). -/
structure GmailMsg where
  id : Option String := none
  threadId : Option String := none
  headers : List GmailMessagePartHeader := []
  labelIds : Option (List String) := none
deriving DecidableEq, Repr

/-- The header lookup of `convertGmailMessage`:
`headers.find(h => h.name?.toLowerCase() === name.toLowerCase())?.value`. -/
def getHeader (headers : List GmailMessagePartHeader) (nm : String) : Option String :=
  match headers.find? (fun h => (h.name.map jsToLower) == some (jsToLower nm)) with
  | some h => h.value
  | none => none

/-- Index of the angle bracket chosen by the backtracking match of
`/^(.+?)\s*<(.+?)>$/`: the first occurrence of a left angle bracket that
leaves at least one character for group 1 before it and at least one
character before the final right angle bracket after it. -/
def firstAngleIdx (cs : List Char) : Option Nat :=
  (List.range cs.length).find?
    (fun j => decide (1 ≤ j) && decide (j + 2 < cs.length) && (cs.get? j == some '<'))

/-- The match of the Gmail address regular expression `/^(.+?)\s*<(.+?)>$/`
against a header string, returning the trimmed-equivalent raw captures: the
prefix before the chosen bracket (whose trim equals the trim of the lazy
group-1 capture) and the text between that bracket and the final right
angle bracket. -/
def emailAngleMatch (s : String) : Option (String × String) :=
  let cs := s.data
  let n := cs.length
  if cs.getLast? == some '>' then
    match firstAngleIdx cs with
    | some j =>
      some (⟨cs.take j⟩, ⟨(cs.drop (j + 1)).take (n - 1 - (j + 1))⟩)
    | none => none
  else none

/-- `GmailProvider.parseEmailAddress`: `undefined` or an empty string yields
`undefined`; a regex match yields the trimmed captures; otherwise the raw
string degrades to an address whose email is the trimmed raw text. -/
def parseEmailAddress : Option String → Option EmailAddress
  | none => none
  | some a =>
    if a = "" then none
    else
      match emailAngleMatch a with
      | some (g1, g2) => some { name := some (jsTrim g1), email := jsTrim g2 }
      | none => some { email := jsTrim a }

/-- `GmailProvider.parseEmailAddresses`: split on commas, parse each trimmed
piece, and drop the `undefined` results with `filter(Boolean)`. -/
def parseEmailAddresses (addrs : Option String) : List EmailAddress :=
  match addrs with
  | none => []
  | some s =>
    if s = "" then []
    else ((s.splitOn ",").map (fun a => parseEmailAddress (some (jsTrim a)))).filterMap id

/-- `GmailProvider.convertGmailMessage` restricted to the fields the claims
mention.  `isRead` is `!labelIds?.includes('UNREAD')` (true when the label
list is absent, because `!undefined` is `true`); `labels` is
`labelIds || []`. -/
def convertGmailMessage (g : GmailMsg) : EmailMessage :=
  { id := g.id
    threadId := g.threadId
    subject := jsOrStr (getHeader g.headers "subject") ""
    fromAddr := parseEmailAddress (getHeader g.headers "from")
    toAddrs := parseEmailAddresses (getHeader g.headers "to")
    cc := some (parseEmailAddresses (getHeader g.headers "cc"))
    isRead := some (match g.labelIds with
      | some ls => !(ls.contains "UNREAD")
      | none => true)
    labels := some (match g.labelIds with
      | some ls => ls
      | none => []) }

/-- `GmailProvider.listEmails`: for each summary entry with a truthy id the
full message is refetched through `getEmail` and converted; `fetch` abstracts
the `users.messages.get` round trip. -/
def gmailListEmails (summaryIds : List (Option String)) (fetch : String → GmailMsg) :
    List EmailMessage :=
  (summaryIds.filterMap jsFilterBoolean).map (fun i => convertGmailMessage (fetch i))

/-- The parts of the `users.messages.send` request emitted by
`GmailProvider.replyToEmail` that the claims mention: the Subject header
written into the raw MIME blob, and the threadId attached to the request
body. -/
structure GmailSendRequest where
  subjectHeader : String
  threadId : Option String
deriving DecidableEq, Repr

/-- The fields of the `users.messages.send` response the reply path reads. -/
structure GmailSendResponse where
  id : Option String := none
  threadId : Option String := none
  labelIds : Option (List String) := none
deriving DecidableEq, Repr

/-- `GmailProvider.replyToEmail` after the original message has been fetched:
the reply subject is unconditionally the original subject with a Re-colon
marker prepended, the send request carries the original thread id, and the
returned message is synthesised from the options and the send response. -/
def gmailReplyToEmail (originalMessage : EmailMessage) (options : SendEmailOptions)
    (response : GmailSendResponse) : GmailSendRequest × EmailMessage :=
  let subject := "Re: " ++ originalMessage.subject
  ({ subjectHeader := subject, threadId := originalMessage.threadId },
   { id := response.id
     threadId := response.threadId
     subject := subject
     toAddrs := options.toAddrs
     cc := options.cc
     labels := some (match response.labelIds with
       | some ls => ls
       | none => []) })

/-- A Graph recipient's nested address object. -/
structure GraphEmailAddress where
  address : Option String := none
  name : Option String := none
deriving DecidableEq, Repr

/-- A Graph recipient wrapper (`{ emailAddress: { address, name } }`). -/
structure GraphRecipient where
  emailAddress : Option GraphEmailAddress := none
deriving DecidableEq, Repr

/-- `MicrosoftProvider.convertFromGraphRecipient`: a missing recipient
degrades to an address with an empty email, and a missing nested address
string also degrades to the empty string (`address || ''`). -/
def convertFromGraphRecipient (recipient : Option GraphRecipient) : EmailAddress :=
  match recipient with
  | none => { email := "" }
  | some r =>
    { email := jsOrStr (r.emailAddress.bind (fun a => a.address)) ""
      name := r.emailAddress.bind (fun a => a.name) }

/-- The fields of a raw Graph message record read by the conversion under
verification; body, attachments and receivedDateTime are elided.
`fromRecipient` embeds the source field `from`. -/
structure GraphMsg where
  id : Option String := none
  subject : String := ""
  fromRecipient : Option GraphRecipient := none
  toRecipients : Option (List GraphRecipient) := none
  ccRecipients : Option (List GraphRecipient) := none
  isRead : Option Bool := none
  conversationId : Option String := none
  categories : Option (List String) := none
deriving DecidableEq, Repr

/-- `MicrosoftProvider.convertGraphMessage` restricted to the fields the
claims mention.  The `from` field is always populated (possibly with an
empty-email degenerate address); recipient lists default to `[]`;
`labels` is `categories || []`. -/
def convertGraphMessage (g : GraphMsg) : EmailMessage :=
  { id := g.id
    subject := g.subject
    fromAddr := some (convertFromGraphRecipient g.fromRecipient)
    toAddrs := (match g.toRecipients with
      | some rs => rs.map (fun r => convertFromGraphRecipient (some r))
      | none => [])
    cc := some (match g.ccRecipients with
      | some rs => rs.map (fun r => convertFromGraphRecipient (some r))
      | none => [])
    isRead := g.isRead
    threadId := g.conversationId
    labels := some (match g.categories with
      | some cs => cs
      | none => []) }

/-- A Gmail palette entry value: background and text color. -/
structure GColor where
  backgroundColor : String
  textColor : String
deriving DecidableEq, Repr

/-- The fixed Gmail color palette of `convertToGmailColor`, in source
(insertion) order. -/
def gmailColorPalette : List (String × GColor) :=
  [("#ff0000", ⟨"#fb4c2f", "#ffffff"⟩),
   ("#fb4c2f", ⟨"#fb4c2f", "#ffffff"⟩),
   ("#ff8800", ⟨"#ffc8af", "#ffffff"⟩),
   ("#ffc8af", ⟨"#ffc8af", "#594c05"⟩),
   ("#ffff00", ⟨"#fad165", "#594c05"⟩),
   ("#fad165", ⟨"#fad165", "#594c05"⟩),
   ("#00ff00", ⟨"#16a765", "#ffffff"⟩),
   ("#16a765", ⟨"#16a765", "#ffffff"⟩),
   ("#7bd148", ⟨"#7bd148", "#594c05"⟩),
   ("#0000ff", ⟨"#4986e7", "#ffffff"⟩),
   ("#4986e7", ⟨"#4986e7", "#ffffff"⟩),
   ("#a4bdfc", ⟨"#a4bdfc", "#594c05"⟩),
   ("#800080", ⟨"#b99aff", "#ffffff"⟩),
   ("#b99aff", ⟨"#b99aff", "#594c05"⟩),
   ("#ff00ff", ⟨"#f691b3", "#ffffff"⟩),
   ("#f691b3", ⟨"#f691b3", "#ffffff"⟩),
   ("#808080", ⟨"#cabdbf", "#594c05"⟩),
   ("#cabdbf", ⟨"#cabdbf", "#594c05"⟩)]

/-- The default fallback entry of `convertToGmailColor` (red). -/
def gmailDefaultColor : GColor := ⟨"#fb4c2f", "#ffffff"⟩

/-- The fixed Microsoft preset color map of `convertColorToPreset`, in source
(insertion) order. -/
def msColorMap : List (String × String) :=
  [("#ff0000", "preset0"),
   ("#ff4500", "preset1"),
   ("#8b4513", "preset2"),
   ("#ffff00", "preset3"),
   ("#008000", "preset4"),
   ("#008080", "preset5"),
   ("#808000", "preset6"),
   ("#0000ff", "preset7"),
   ("#800080", "preset8"),
   ("#9b2d30", "preset9"),
   ("#5a7e9f", "preset10"),
   ("#485c69", "preset11"),
   ("#808080", "preset12"),
   ("#696969", "preset13"),
   ("#000000", "preset14"),
   ("#8b0000", "preset15"),
   ("#ff8c00", "preset16"),
   ("#654321", "preset17"),
   ("#9b870c", "preset18"),
   ("#006400", "preset19"),
   ("#00555a", "preset20"),
   ("#5b5e0a", "preset21"),
   ("#00008b", "preset22"),
   ("#4b0082", "preset23"),
   ("#6f2633", "preset24")]

/-- Hexadecimal digit value (parseInt radix 16 accepts both cases). -/
def hexDigitVal (c : Char) : Option Nat :=
  let n := c.toNat
  if 48 ≤ n ∧ n ≤ 57 then some (n - 48)
  else if 97 ≤ n ∧ n ≤ 102 then some (n - 87)
  else if 65 ≤ n ∧ n ≤ 70 then some (n - 55)
  else none

/-- `parseInt(pair, 16)` on a two-character slice: NaN (`none`) when the
first character is not a hex digit; when only the second character is
invalid, parseInt keeps the one-digit prefix. -/
def jsHexPair (c1 c2 : Char) : Option Nat :=
  match hexDigitVal c1 with
  | none => none
  | some h =>
    match hexDigitVal c2 with
    | some l => some (16 * h + l)
    | none => some h

/-- An RGB triple. -/
structure RGB where
  r : Nat
  g : Nat
  b : Nat
deriving DecidableEq, Repr

/-- The `hexToRgb` helper on a 7-character string starting with a hash:
`none` models a NaN component (which makes every distance comparison in the
loop false). -/
def rgbOfJs (s : String) : Option RGB :=
  match s.data with
  | ['#', a, b, c, d, e, f] =>
    match jsHexPair a b, jsHexPair c d, jsHexPair e f with
    | some rv, some gv, some bv => some ⟨rv, gv, bv⟩
    | _, _, _ => none
  | _ => none

/-- Squared Euclidean RGB distance.  The source compares `Math.sqrt` of this
quantity; square root is strictly monotone on nonnegative reals, so every
comparison in the loop agrees with comparing the squared distances. -/
def dist2 (x y : RGB) : Int :=
  ((x.r : Int) - y.r) * ((x.r : Int) - y.r) +
    ((x.g : Int) - y.g) * ((x.g : Int) - y.g) +
    ((x.b : Int) - y.b) * ((x.b : Int) - y.b)

/-- The loop's `distance < minDistance` comparison, where `none` is the
initial `Infinity`. -/
def mdLt (d : Int) (md : Option Int) : Bool :=
  match md with
  | none => true
  | some m => d < m

/-- One iteration of the nearest-color loop: skip entries rejected by the
`keep` guard (the Gmail loop's hash check) or whose key fails to parse, and
otherwise update the running best when strictly closer. -/
def nearestStep {α : Type} (keep : String → Bool) (t : RGB)
    (acc : α × Option Int) (kv : String × α) : α × Option Int :=
  if keep kv.1 then
    match rgbOfJs kv.1 with
    | none => acc
    | some kc => if mdLt (dist2 t kc) acc.2 then (kv.2, some (dist2 t kc)) else acc
  else acc

/-- `GmailProvider.convertToGmailColor`: exact palette lookup of the
lowercased input, then nearest-by-RGB-distance for 7-character hash strings,
then the red default. -/
def convertToGmailColor (hexColor : String) : GColor :=
  match gmailColorPalette.find? (fun kv => kv.1 == jsToLower hexColor) with
  | some kv => kv.2
  | none =>
    if jsStartsWith (jsToLower hexColor) "#" && (jsToLower hexColor).length == 7 then
      match rgbOfJs (jsToLower hexColor) with
      | some targetRgb =>
        (gmailColorPalette.foldl
          (nearestStep (fun k => jsStartsWith k "#") targetRgb)
          (gmailDefaultColor, none)).1
      | none => gmailDefaultColor
    else gmailDefaultColor

/-- `MicrosoftProvider.convertColorToPreset`: missing or empty color falls
back to preset0; a string starting with "preset" is returned unchanged; then
exact map lookup of the lowercased input, nearest-by-RGB-distance for
7-character hash strings, and the preset0 default. -/
def convertColorToPreset : Option String → String
  | none => "preset0"
  | some c =>
    if c = "" then "preset0"
    else if jsStartsWith c "preset" then c
    else
      match msColorMap.find? (fun kv => kv.1 == jsToLower c) with
      | some kv => kv.2
      | none =>
        if jsStartsWith (jsToLower c) "#" && (jsToLower c).length == 7 then
          match rgbOfJs (jsToLower c) with
          | some targetRgb =>
            (msColorMap.foldl (nearestStep (fun _ => true) targetRgb)
              ("preset0", none)).1
          | none => "preset0"
        else "preset0"

/-- The nearest-palette-member property: the result is the value of some
palette entry whose key's RGB distance to the target is minimal over the
whole palette. -/
def isNearestIn {α : Type} (pal : List (String × α)) (t : RGB) (res : α) : Prop :=
  ∃ k kc, (k, res) ∈ pal ∧ rgbOfJs k = some kc ∧
    ∀ k2 v2 kc2, (k2, v2) ∈ pal → rgbOfJs k2 = some kc2 →
      dist2 t kc ≤ dist2 t kc2

/-! ## Helper lemmas -/

theorem dist2_nonneg (x y : RGB) : 0 ≤ dist2 x y := by
  unfold dist2
  have h1 := mul_self_nonneg ((x.r : Int) - y.r)
  have h2 := mul_self_nonneg ((x.g : Int) - y.g)
  have h3 := mul_self_nonneg ((x.b : Int) - y.b)
  omega

theorem dist2_self (t : RGB) : dist2 t t = 0 := by
  unfold dist2
  ring

theorem nearestStep_eq {α : Type} (keep : String → Bool) (t : RGB)
    (acc : α × Option Int) (kv : String × α) :
    nearestStep keep t acc kv = acc ∨
      ∃ kc, rgbOfJs kv.1 = some kc ∧ mdLt (dist2 t kc) acc.2 = true ∧
        nearestStep keep t acc kv = (kv.2, some (dist2 t kc)) := by
  unfold nearestStep
  by_cases hk : keep kv.1
  · simp only [hk, if_true]
    cases hr : rgbOfJs kv.1 with
    | none => exact Or.inl rfl
    | some kc =>
      by_cases hlt : mdLt (dist2 t kc) acc.2
      · exact Or.inr ⟨kc, rfl, hlt, by simp [hlt]⟩
      · exact Or.inl (by simp [hlt])
  · simp [hk]

theorem foldl_nearest_pick {α : Type} (keep : String → Bool) (t : RGB)
    (l : List (String × α)) :
    ∀ acc : α × Option Int,
      l.foldl (nearestStep keep t) acc = acc ∨
        ∃ k kc, (k, (l.foldl (nearestStep keep t) acc).1) ∈ l ∧
          rgbOfJs k = some kc ∧
          (l.foldl (nearestStep keep t) acc).2 = some (dist2 t kc) := by
  induction l with
  | nil => intro acc; exact Or.inl rfl
  | cons kv tl ih =>
    intro acc
    rw [List.foldl_cons]
    rcases nearestStep_eq keep t acc kv with h | ⟨kc, hr, _, h⟩
    · rw [h]
      rcases ih acc with h2 | ⟨k, kc2, hm, hr2, hd2⟩
      · exact Or.inl h2
      · exact Or.inr ⟨k, kc2, List.mem_cons_of_mem _ hm, hr2, hd2⟩
    · rw [h]
      rcases ih (kv.2, some (dist2 t kc)) with h2 | ⟨k, kc2, hm, hr2, hd2⟩
      · rw [h2]
        exact Or.inr ⟨kv.1, kc, by simp, hr, rfl⟩
      · exact Or.inr ⟨k, kc2, List.mem_cons_of_mem _ hm, hr2, hd2⟩

theorem foldl_md_mono {α : Type} (keep : String → Bool) (t : RGB)
    (l : List (String × α)) :
    ∀ (acc : α × Option Int) (m : Int), acc.2 = some m →
      ∃ m2, (l.foldl (nearestStep keep t) acc).2 = some m2 ∧ m2 ≤ m := by
  induction l with
  | nil => intro acc m h; exact ⟨m, h, le_refl m⟩
  | cons kv tl ih =>
    intro acc m h
    rw [List.foldl_cons]
    rcases nearestStep_eq keep t acc kv with hs | ⟨kc, _, hlt, hs⟩
    · rw [hs]; exact ih acc m h
    · rw [hs]
      obtain ⟨m2, hm2, hle⟩ := ih (kv.2, some (dist2 t kc)) (dist2 t kc) rfl
      refine ⟨m2, hm2, le_trans hle ?_⟩
      unfold mdLt at hlt
      rw [h] at hlt
      simp at hlt
      exact le_of_lt hlt

theorem foldl_min_le {α : Type} (keep : String → Bool) (t : RGB)
    (l : List (String × α)) :
    ∀ (acc : α × Option Int) (k : String) (v : α) (kc : RGB),
      (k, v) ∈ l → keep k = true → rgbOfJs k = some kc →
      ∃ m2, (l.foldl (nearestStep keep t) acc).2 = some m2 ∧ m2 ≤ dist2 t kc := by
  induction l with
  | nil => intro acc k v kc hm; cases hm
  | cons kv tl ih =>
    intro acc k v kc hm hk hr
    rw [List.foldl_cons]
    rcases List.mem_cons.mp hm with hhead | htail
    · have hk1 : keep kv.1 = true := by rw [← hhead]; exact hk
      have hr1 : rgbOfJs kv.1 = some kc := by rw [← hhead]; exact hr
      have hstep_eq : nearestStep keep t acc kv =
          if mdLt (dist2 t kc) acc.2 = true then (kv.2, some (dist2 t kc)) else acc := by
        unfold nearestStep
        rw [if_pos hk1, hr1]
      by_cases hlt : mdLt (dist2 t kc) acc.2 = true
      · rw [hstep_eq, if_pos hlt]
        exact foldl_md_mono keep t tl _ _ rfl
      · rw [hstep_eq, if_neg hlt]
        cases hacc : acc.2 with
        | none => exact absurd (by rw [hacc]; rfl) hlt
        | some m =>
          rw [hacc] at hlt
          simp only [mdLt, decide_eq_true_eq] at hlt
          obtain ⟨m2, hm2, hle2⟩ := foldl_md_mono keep t tl acc m hacc
          exact ⟨m2, hm2, le_trans hle2 (le_of_not_lt hlt)⟩
    · exact ih (nearestStep keep t acc kv) k v kc htail hk hr

theorem nearest_of_fold {α : Type} (keep : String → Bool) (t : RGB)
    (pal : List (String × α)) (b0 : α)
    (hpal : ∀ kv ∈ pal, keep kv.1 = true ∧ (rgbOfJs kv.1).isSome = true)
    (k0 : String) (v0 : α) (h0 : (k0, v0) ∈ pal) :
    isNearestIn pal t ((pal.foldl (nearestStep keep t) (b0, (none : Option Int))).1) := by
  obtain ⟨hk0, hs0⟩ := hpal _ h0
  obtain ⟨kc0, hr0⟩ := Option.isSome_iff_exists.mp hs0
  obtain ⟨m, hm, _⟩ := foldl_min_le keep t pal (b0, none) k0 v0 kc0 h0 hk0 hr0
  rcases foldl_nearest_pick keep t pal (b0, none) with h | ⟨k, kc, hmem, hrgb, hd⟩
  · rw [h] at hm; cases hm
  · refine ⟨k, kc, hmem, hrgb, ?_⟩
    intro k2 v2 kc2 h2 hr2
    obtain ⟨hk2, _⟩ := hpal _ h2
    obtain ⟨m2, hm2, hle2⟩ := foldl_min_le keep t pal (b0, none) k2 v2 kc2 h2 hk2 hr2
    rw [hd] at hm2
    have : dist2 t kc = m2 := by injection hm2
    rw [this]
    exact hle2

theorem gmailPalette_keys :
    ∀ kv ∈ gmailColorPalette,
      jsStartsWith kv.1 "#" = true ∧ (rgbOfJs kv.1).isSome = true ∧ kv.1.length = 7 := by
  decide

theorem msColorMap_keys :
    ∀ kv ∈ msColorMap,
      (rgbOfJs kv.1).isSome = true ∧ jsStartsWith kv.1 "#" = true ∧ kv.1.length = 7 := by
  decide

theorem resolveCategoryNames_cons (categories : List EmailLabel) (i : String)
    (ids : List String) :
    resolveCategoryNames categories (i :: ids) =
      (match jsFilterBoolean ((categories.find? (fun c => c.id == i)).map
          (fun c => c.name)) with
        | some s => s :: resolveCategoryNames categories ids
        | none => resolveCategoryNames categories ids) := by
  cases h : jsFilterBoolean ((categories.find? (fun c => c.id == i)).map
      (fun c => c.name)) with
  | none => simp only [resolveCategoryNames, List.map_cons, List.filterMap_cons, h]
  | some s => simp only [resolveCategoryNames, List.map_cons, List.filterMap_cons, h]

theorem resolveCategoryNames_drop (categories : List EmailLabel) :
    ∀ ids : List String,
      resolveCategoryNames categories ids =
        resolveCategoryNames categories
          (ids.filter (fun i => (categories.find? (fun c => c.id == i)).isSome)) := by
  intro ids
  induction ids with
  | nil => rfl
  | cons i tl ih =>
    rw [resolveCategoryNames_cons, List.filter_cons]
    cases h : categories.find? (fun c => c.id == i) with
    | none => simpa [jsFilterBoolean] using ih
    | some c =>
      rw [if_pos (by simp)]
      rw [resolveCategoryNames_cons, h, ih]

theorem resolveCategoryNames_sound (categories : List EmailLabel) :
    ∀ ids : List String,
      (resolveCategoryNames categories ids).all
        (fun n => categories.any (fun c => c.name == n)) = true := by
  intro ids
  induction ids with
  | nil => rfl
  | cons i tl ih =>
    rw [resolveCategoryNames_cons]
    cases h : categories.find? (fun c => c.id == i) with
    | none => simpa [jsFilterBoolean] using ih
    | some c =>
      by_cases hn : c.name = ""
      · simpa [jsFilterBoolean, hn] using ih
      · have hc : categories.any (fun c2 => c2.name == c.name) = true := by
          rw [List.any_eq_true]
          exact ⟨c, List.mem_of_find?_eq_some h, by simp⟩
        simp [jsFilterBoolean, hn, List.all_cons, hc, ih]

theorem normalizeErrorObj_of_rule (e : RawError) (p : String) (r : SuperMailError)
    (h : providerRule e p = some r) : normalizeErrorObj e p = r := by
  unfold normalizeErrorObj
  rw [h]

theorem normalizeErrorObj_fallback (e : RawError) (p : String)
    (h1 : p = "gmail" → gmailRule e = none)
    (h2 : p = "microsoft" → msRule e = none)
    (h3 : isNetworkCode e.code = false) :
    normalizeErrorObj e p =
      { code := .UNKNOWN_ERROR, message := jsMessageOrDefault e.message,
        provider := some p, originalError := some e } := by
  have hpr : providerRule e p = none := by
    unfold providerRule
    by_cases hg : p = "gmail"
    · rw [if_pos hg]
      exact h1 hg
    · rw [if_neg hg]
      by_cases hm : p = "microsoft"
      · rw [if_pos hm]
        exact h2 hm
      · rw [if_neg hm]
  unfold normalizeErrorObj
  rw [hpr]
  simp [h3]

/-! ## Claims -/

/-- Claim C1 (counterexample): the claim quantifies over every adapter tag,
but the classifier has no rule for the imap tag: a raw failure that is
401-equivalent in every field the classifier could read (numeric code 401,
statusCode 401, response status 401) normalizes under the imap tag to
UNKNOWN_ERROR, not AUTH_FAILED. -/
theorem C1_counterexample :
    (normalizeErrorObj
      { code := some (JsVal.vnum 401), statusCode := some 401,
        responseStatus := some 401, message := some "Unauthorized" } "imap").code =
      ErrorCode.UNKNOWN_ERROR ∧
    ErrorCode.UNKNOWN_ERROR ≠ ErrorCode.AUTH_FAILED := by
  decide

/-- Claim C1 (amended): for the gmail and microsoft adapter tags (the only
tags with classification tables), a 401-equivalent raw failure (as read by
that adapter's table) normalizes to AUTH_FAILED, and a 429-equivalent
normalizes to RATE_LIMIT_EXCEEDED with retryAfter 5 whenever the retry-after
header is present with value "5" at the location that adapter's table reads
(response headers for gmail, top-level headers for microsoft); for the
microsoft 429 case the earlier table rows must not match, since the first
match wins.  Under the imap tag such failures fall through to the generic
stages (see the counterexample). -/
theorem C1_amended :
    (∀ e : RawError, gmailStatusOf e = some (JsVal.vnum 401) →
      (normalizeErrorObj e "gmail").code = ErrorCode.AUTH_FAILED) ∧
    (∀ e : RawError,
      msStatusOf e = some (JsVal.vnum 401) ∨
        msErrorCodeOf e = some (JsVal.vstr "InvalidAuthenticationToken") →
      (normalizeErrorObj e "microsoft").code = ErrorCode.AUTH_FAILED) ∧
    (∀ e : RawError, gmailStatusOf e = some (JsVal.vnum 429) →
      (normalizeErrorObj e "gmail").code = ErrorCode.RATE_LIMIT_EXCEEDED ∧
      (e.responseRetryAfter = some "5" →
        (normalizeErrorObj e "gmail").retryAfter = some 5)) ∧
    (∀ e : RawError,
      (msStatusOf e = some (JsVal.vnum 429) ∨
        msErrorCodeOf e = some (JsVal.vstr "TooManyRequests")) →
      msStatusOf e ≠ some (JsVal.vnum 401) →
      msStatusOf e ≠ some (JsVal.vnum 403) →
      msStatusOf e ≠ some (JsVal.vnum 404) →
      msErrorCodeOf e ≠ some (JsVal.vstr "InvalidAuthenticationToken") →
      msErrorCodeOf e ≠ some (JsVal.vstr "Forbidden") →
      msErrorCodeOf e ≠ some (JsVal.vstr "ResourceNotFound") →
      (normalizeErrorObj e "microsoft").code = ErrorCode.RATE_LIMIT_EXCEEDED ∧
      (e.headersRetryAfter = some "5" →
        (normalizeErrorObj e "microsoft").retryAfter = some 5)) := by
  refine ⟨fun e h => ?_, fun e h => ?_, fun e h => ?_, fun e h h1 h2 h3 h4 h5 h6 => ?_⟩
  · have hrule : providerRule e "gmail" = some
        { code := .AUTH_FAILED,
          message := "Gmail authentication failed. Token may be expired or invalid.",
          provider := some "gmail", originalError := some e } := by
      unfold providerRule gmailRule
      rw [if_pos rfl, if_pos h]
    rw [normalizeErrorObj_of_rule _ _ _ hrule]
  · have hrule : providerRule e "microsoft" = some
        { code := .AUTH_FAILED,
          message := "Microsoft authentication failed. Token may be expired or invalid.",
          provider := some "microsoft", originalError := some e } := by
      unfold providerRule msRule
      rw [if_neg (by decide), if_pos rfl, if_pos h]
    rw [normalizeErrorObj_of_rule _ _ _ hrule]
  · have h401 : gmailStatusOf e ≠ some (JsVal.vnum 401) := by rw [h]; decide
    have h403 : gmailStatusOf e ≠ some (JsVal.vnum 403) := by rw [h]; decide
    have h404 : gmailStatusOf e ≠ some (JsVal.vnum 404) := by rw [h]; decide
    have hrule : providerRule e "gmail" = some
        { code := .RATE_LIMIT_EXCEEDED, message := "Gmail rate limit exceeded.",
          provider := some "gmail", retryAfter := jsRetryAfter e.responseRetryAfter,
          originalError := some e } := by
      unfold providerRule gmailRule
      rw [if_pos rfl, if_neg h401, if_neg h403, if_neg h404, if_pos h]
    rw [normalizeErrorObj_of_rule _ _ _ hrule]
    refine ⟨rfl, fun hra => ?_⟩
    simp only [hra]
    decide
  · have hrule : providerRule e "microsoft" = some
        { code := .RATE_LIMIT_EXCEEDED, message := "Microsoft rate limit exceeded.",
          provider := some "microsoft", retryAfter := jsRetryAfter e.headersRetryAfter,
          originalError := some e } := by
      unfold providerRule msRule
      rw [if_neg (by decide), if_pos rfl, if_neg (not_or.mpr ⟨h1, h4⟩),
        if_neg (not_or.mpr ⟨h2, h5⟩), if_neg (not_or.mpr ⟨h3, h6⟩), if_pos h]
    rw [normalizeErrorObj_of_rule _ _ _ hrule]
    refine ⟨rfl, fun hra => ?_⟩
    simp only [hra]
    decide

/-- Claim C1 (witness): the amended theorem evaluated at concrete
401-equivalent and 429-equivalent raw failures for both classified tags. -/
theorem C1_witness :
    (normalizeErrorObj { code := some (JsVal.vnum 401) } "gmail").code =
      ErrorCode.AUTH_FAILED ∧
    (normalizeErrorObj { statusCode := some 401 } "microsoft").code =
      ErrorCode.AUTH_FAILED ∧
    (normalizeErrorObj { code := some (JsVal.vnum 429), responseRetryAfter := some "5" }
      "gmail").code = ErrorCode.RATE_LIMIT_EXCEEDED ∧
    (normalizeErrorObj { code := some (JsVal.vnum 429), responseRetryAfter := some "5" }
      "gmail").retryAfter = some 5 ∧
    (normalizeErrorObj { statusCode := some 429, headersRetryAfter := some "5" }
      "microsoft").code = ErrorCode.RATE_LIMIT_EXCEEDED ∧
    (normalizeErrorObj { statusCode := some 429, headersRetryAfter := some "5" }
      "microsoft").retryAfter = some 5 :=
  ⟨C1_amended.1 _ (by decide),
   C1_amended.2.1 _ (Or.inl (by decide)),
   (C1_amended.2.2.1 _ (by decide)).1,
   (C1_amended.2.2.1 _ (by decide)).2 rfl,
   (C1_amended.2.2.2 _ (Or.inl (by decide)) (by decide) (by decide) (by decide)
     (by decide) (by decide) (by decide)).1,
   (C1_amended.2.2.2 _ (Or.inl (by decide)) (by decide) (by decide) (by decide)
     (by decide) (by decide) (by decide)).2 rfl⟩

/-- Claim C2 (counterexample): the spec names three supported backends, but
the facade dispatch handles only gmail and microsoft: the imap discriminant
falls into the default branch and throws a plain `Error` (not a classified
OPERATION_FAILED error) naming the type. -/
theorem C2_counterexample :
    createProvider { type := "imap" } =
      .error (.plainError ("Unsupported provider type: " ++ "imap")) := rfl

/-- Claim C2 (amended): the constructor dispatch instantiates the gmail
adapter for the gmail discriminant and the microsoft adapter for the
microsoft discriminant; every other discriminant (including imap) fails at
construction time by throwing a plain unclassified `Error` whose message
names the invalid type. -/
theorem C2_amended :
    (∀ config : EmailProviderConfig, config.type = "gmail" →
      createProvider config = .ok .gmail) ∧
    (∀ config : EmailProviderConfig, config.type = "microsoft" →
      createProvider config = .ok .microsoft) ∧
    (∀ config : EmailProviderConfig, config.type ≠ "gmail" →
      config.type ≠ "microsoft" →
      createProvider config =
        .error (.plainError ("Unsupported provider type: " ++ config.type))) := by
  refine ⟨fun c h => ?_, fun c h => ?_, fun c h1 h2 => ?_⟩
  · unfold createProvider
    rw [if_pos h]
  · unfold createProvider
    rw [if_neg (by rw [h]; decide), if_pos h]
  · unfold createProvider
    rw [if_neg h1, if_neg h2]

/-- Claim C2 (witness): the amended theorem evaluated at the three concrete
discriminants. -/
theorem C2_witness :
    createProvider { type := "gmail" } = .ok .gmail ∧
    createProvider { type := "microsoft" } = .ok .microsoft ∧
    createProvider { type := "pop3" } =
      .error (.plainError ("Unsupported provider type: " ++ "pop3")) :=
  ⟨C2_amended.1 _ rfl, C2_amended.2.1 _ rfl,
   C2_amended.2.2 { type := "pop3" } (by decide) (by decide)⟩

/-- Claim C3 (counterexample): when no folder named Archive exists, the
Microsoft adapter's archiveEmail does fail, but the thrown plain
`Error('Archive folder not found')` matches no Microsoft table row and
normalizes to UNKNOWN_ERROR, not the claimed OPERATION_FAILED. -/
theorem C3_counterexample :
    msArchiveEmail [] "m1" =
      .error { code := ErrorCode.UNKNOWN_ERROR, message := "Archive folder not found",
               provider := some "microsoft",
               originalError := some (mkJsError "Archive folder not found") } ∧
    ErrorCode.UNKNOWN_ERROR ≠ ErrorCode.OPERATION_FAILED :=
  ⟨rfl, by decide⟩

/-- Claim C3 (amended): on the Microsoft adapter, archiveEmail with no
folder named Archive fails with a classified error of kind UNKNOWN_ERROR
(message "Archive folder not found"); trashEmail with no folder named
Deleted Items falls back to hard-deleting the message instead of failing;
when the reserved folder exists, each operation moves the message to it. -/
theorem C3_amended :
    (∀ (folders : List EmailFolder) (emailId : String),
      folders.find? (fun f => f.name == "Archive") = none →
      msArchiveEmail folders emailId =
        .error { code := ErrorCode.UNKNOWN_ERROR,
                 message := "Archive folder not found",
                 provider := some "microsoft",
                 originalError := some (mkJsError "Archive folder not found") }) ∧
    (∀ (folders : List EmailFolder) (emailId : String) (f : EmailFolder),
      folders.find? (fun f2 => f2.name == "Archive") = some f →
      msArchiveEmail folders emailId = .ok { emailId := emailId, folderId := f.id }) ∧
    (∀ (folders : List EmailFolder) (emailId : String),
      folders.find? (fun f => f.name == "Deleted Items") = none →
      msTrashEmail folders emailId = .hardDelete emailId) ∧
    (∀ (folders : List EmailFolder) (emailId : String) (f : EmailFolder),
      folders.find? (fun f2 => f2.name == "Deleted Items") = some f →
      msTrashEmail folders emailId = .move { emailId := emailId, folderId := f.id }) := by
  refine ⟨fun folders emailId h => ?_, fun folders emailId f h => ?_,
    fun folders emailId h => ?_, fun folders emailId f h => ?_⟩
  · unfold msArchiveEmail
    rw [h]
    rfl
  · unfold msArchiveEmail
    rw [h]
  · unfold msTrashEmail
    rw [h]
  · unfold msTrashEmail
    rw [h]

/-- Claim C3 (witness): the amended theorem evaluated on empty and singleton
folder lists. -/
theorem C3_witness :
    msArchiveEmail [] "m0" =
      .error { code := ErrorCode.UNKNOWN_ERROR, message := "Archive folder not found",
               provider := some "microsoft",
               originalError := some (mkJsError "Archive folder not found") } ∧
    msArchiveEmail [⟨"fA", "Archive", none, none, none⟩] "m1" =
      .ok { emailId := "m1", folderId := "fA" } ∧
    msTrashEmail [] "m2" = .hardDelete "m2" ∧
    msTrashEmail [⟨"fD", "Deleted Items", none, none, none⟩] "m3" =
      .move { emailId := "m3", folderId := "fD" } :=
  ⟨C3_amended.1 [] "m0" (by decide),
   C3_amended.2.1 [⟨"fA", "Archive", none, none, none⟩] "m1"
     ⟨"fA", "Archive", none, none, none⟩ (by decide),
   C3_amended.2.2.1 [] "m2" (by decide),
   C3_amended.2.2.2 [⟨"fD", "Deleted Items", none, none, none⟩] "m3"
     ⟨"fD", "Deleted Items", none, none, none⟩ (by decide)⟩

/-- Claim C4 (confirmed): the IMAP adapter's createLabel fails with a
classified error of kind OPERATION_FAILED for every name and color argument;
it never returns successfully. -/
theorem C4_theorem : ∀ (nm : String) (color : Option String),
    imapCreateLabel nm color =
      .error { code := ErrorCode.OPERATION_FAILED,
               message := "IMAP does not support creating custom labels. Use folders instead.",
               provider := some "imap" } :=
  fun _ _ => rfl

/-- Claim C5 (counterexample): normalizeError is not total on every raw
input: on a null or undefined argument the first property access throws a
TypeError instead of returning a classified error. -/
theorem C5_counterexample :
    normalizeError RawInput.nullish "gmail" = .error () := rfl

/-- Claim C5 (amended): normalizeError throws a TypeError on null/undefined
input; on every proper error object it is a pure total function returning a
classified error; and an object matching no provider rule and no
connectivity rule yields UNKNOWN_ERROR, preserving the original message
whenever one is present and non-empty (an absent or empty message is
replaced by a fixed default). -/
theorem C5_amended :
    (∀ p : String, normalizeError RawInput.nullish p = .error ()) ∧
    (∀ (e : RawError) (p : String),
      normalizeError (RawInput.obj e) p = .ok (normalizeErrorObj e p)) ∧
    (∀ (e : RawError) (p : String),
      (p = "gmail" → gmailRule e = none) →
      (p = "microsoft" → msRule e = none) →
      isNetworkCode e.code = false →
      (normalizeErrorObj e p).code = ErrorCode.UNKNOWN_ERROR ∧
      ∀ m, e.message = some m → m ≠ "" → (normalizeErrorObj e p).message = m) := by
  refine ⟨fun p => rfl, fun e p => rfl, fun e p h1 h2 h3 => ?_⟩
  rw [normalizeErrorObj_fallback e p h1 h2 h3]
  refine ⟨rfl, fun m hm hne => ?_⟩
  simp [jsMessageOrDefault, hm, hne]

/-- Claim C5 (witness): the amended theorem evaluated at a plain error with
message "boom" under the imap tag (no provider rule, no network code). -/
theorem C5_witness :
    (normalizeErrorObj (mkJsError "boom") "imap").code = ErrorCode.UNKNOWN_ERROR ∧
    (normalizeErrorObj (mkJsError "boom") "imap").message = "boom" := by
  have h := C5_amended.2.2 (mkJsError "boom") "imap"
    (fun hp => absurd hp (by decide)) (fun hp => absurd hp (by decide)) (by decide)
  exact ⟨h.1, h.2 "boom" rfl (by decide)⟩

/-- Claim C6 (counterexample): the Gmail reply path prepends the Re-colon
marker unconditionally, so a message whose subject is already prefixed comes
back double-prefixed, contradicting the claim's "no second prefix" clause. -/
theorem C6_counterexample :
    ((gmailReplyToEmail { subject := "Re: Hi", threadId := some "t1" }
      { subject := "ignored" } { }).2).subject = "Re: Re: Hi" ∧
    "Re: Re: Hi" ≠ "Re: Hi" :=
  ⟨rfl, by decide⟩

/-- Claim C6 (amended): the Gmail adapter's replyToEmail submits the reply
with the original message's thread identifier, and both the submitted
Subject header and the returned message's subject are the original subject
with the Re-colon marker prepended unconditionally (even when the subject is
already so prefixed); the returned threadId is whatever the send response
carries. -/
theorem C6_amended : ∀ (originalMessage : EmailMessage) (options : SendEmailOptions)
    (response : GmailSendResponse),
    (gmailReplyToEmail originalMessage options response).1.threadId =
      originalMessage.threadId ∧
    (gmailReplyToEmail originalMessage options response).1.subjectHeader =
      "Re: " ++ originalMessage.subject ∧
    (gmailReplyToEmail originalMessage options response).2.subject =
      "Re: " ++ originalMessage.subject ∧
    (gmailReplyToEmail originalMessage options response).2.threadId =
      response.threadId :=
  fun _ _ _ => ⟨rfl, rfl, rfl, rfl⟩

/-- Claim C7 (confirmed): the Microsoft adapter's addLabels and removeLabels
resolve each label id to a category name against the listLabels result and
patch with the resolved names; ids resolving to no category are silently
dropped (filtering them away changes nothing), every patched name is the
name of some listed category, and the operations succeed regardless. -/
theorem C7_theorem :
    (∀ (categories : List EmailLabel) (options : AddLabelsOptions),
      msAddLabels categories options =
        .ok (resolveCategoryNames categories options.labelIds)) ∧
    (∀ (categories : List EmailLabel) (ids : List String),
      resolveCategoryNames categories ids =
        resolveCategoryNames categories
          (ids.filter (fun i => (categories.find? (fun c => c.id == i)).isSome))) ∧
    (∀ (categories : List EmailLabel) (ids : List String),
      (resolveCategoryNames categories ids).all
        (fun n => categories.any (fun c => c.name == n)) = true) ∧
    (∀ (categories : List EmailLabel) (currentCategories : List String)
        (options : RemoveLabelsOptions),
      msRemoveLabels categories currentCategories options =
        .ok (currentCategories.filter
          (fun cat => !((resolveCategoryNames categories options.labelIds).contains cat)))) :=
  ⟨fun _ _ => rfl, resolveCategoryNames_drop, resolveCategoryNames_sound,
   fun _ _ _ => rfl⟩

/-- Claim C8 (counterexample): the claim covers all three adapters, but the
IMAP adapter's createLabel fails even when handed a color from the other
adapters' palettes, so it never produces a label whose color is a palette
member. -/
theorem C8_counterexample :
    imapCreateLabel "Work" (some "#ff0000") =
      .error { code := ErrorCode.OPERATION_FAILED,
               message := "IMAP does not support creating custom labels. Use folders instead.",
               provider := some "imap" } := rfl

/-- Claim C8 (amended): the Gmail converter always returns a member of its
closed palette; for a well-formed lowercased 7-character hash input the
chosen entry minimizes Euclidean RGB distance over the palette, and inputs
that are not 7-character hash strings fall back to the default entry.  The
Microsoft converter behaves the same for inputs not starting with "preset"
(with preset0 as default), but passes strings starting with "preset" through
unchanged; a missing color yields preset0 (a palette member).  The IMAP
adapter's createLabel fails identically for every color, so the failure is
never on account of the color, but it produces no label at all. -/
theorem C8_amended :
    (∀ c : String, ∃ k, (k, convertToGmailColor c) ∈ gmailColorPalette) ∧
    (∀ (c : String) (t : RGB), rgbOfJs (jsToLower c) = some t →
      jsStartsWith (jsToLower c) "#" = true → (jsToLower c).length = 7 →
      isNearestIn gmailColorPalette t (convertToGmailColor c)) ∧
    (∀ c : String,
      jsStartsWith (jsToLower c) "#" = false ∨ ¬(jsToLower c).length = 7 →
      convertToGmailColor c = gmailDefaultColor) ∧
    (∃ k, (k, convertColorToPreset none) ∈ msColorMap) ∧
    (∀ s : String, jsStartsWith s "preset" = false →
      ∃ k, (k, convertColorToPreset (some s)) ∈ msColorMap) ∧
    (∀ (s : String) (t : RGB), jsStartsWith s "preset" = false →
      rgbOfJs (jsToLower s) = some t →
      jsStartsWith (jsToLower s) "#" = true → (jsToLower s).length = 7 →
      isNearestIn msColorMap t (convertColorToPreset (some s))) ∧
    (∀ s : String, s ≠ "" → jsStartsWith s "preset" = true →
      convertColorToPreset (some s) = s) ∧
    (∀ s : String, jsStartsWith s "preset" = false →
      jsStartsWith (jsToLower s) "#" = false ∨ ¬(jsToLower s).length = 7 →
      convertColorToPreset (some s) = "preset0") ∧
    (∀ (nm : String) (c1 c2 : Option String),
      imapCreateLabel nm c1 = imapCreateLabel nm c2 ∧
      ∃ err, imapCreateLabel nm c1 = .error err) := by
  refine ⟨?_, ?_, ?_, ⟨"#ff0000", by decide⟩, ?_, ?_, ?_, ?_,
    fun nm c1 c2 => ⟨rfl, _, rfl⟩⟩
  · -- Gmail: the result is always a palette member.
    intro c
    unfold convertToGmailColor
    split
    · next kv hf => exact ⟨kv.1, List.mem_of_find?_eq_some hf⟩
    · next hf =>
      split
      · split
        · next t hr =>
          rcases foldl_nearest_pick (fun k => jsStartsWith k "#") t gmailColorPalette
            (gmailDefaultColor, none) with h | ⟨k, kc, hmem, _, _⟩
          · rw [h]
            exact ⟨"#ff0000", by decide⟩
          · exact ⟨k, hmem⟩
        · exact ⟨"#ff0000", by decide⟩
      · exact ⟨"#ff0000", by decide⟩
  · -- Gmail: nearest match for well-formed inputs.
    intro c t h3 h1 h2
    unfold convertToGmailColor
    split
    · next kv hf =>
      have hkey : kv.1 = jsToLower c := by simpa using List.find?_some hf
      refine ⟨kv.1, t, List.mem_of_find?_eq_some hf, by rw [hkey]; exact h3,
        fun k2 v2 kc2 _ _ => ?_⟩
      rw [dist2_self]
      exact dist2_nonneg t kc2
    · next hf =>
      split
      · split
        · next t2 hr =>
          have ht : t2 = t := by
            rw [h3] at hr
            exact (Option.some.inj hr).symm
          rw [ht]
          exact nearest_of_fold (fun k => jsStartsWith k "#") t gmailColorPalette
            gmailDefaultColor
            (fun kv hm => ⟨(gmailPalette_keys kv hm).1, (gmailPalette_keys kv hm).2.1⟩)
            "#ff0000" gmailDefaultColor (by decide)
        · next hr =>
          rw [h3] at hr
          exact Option.noConfusion hr
      · next hc =>
        exfalso
        apply hc
        rw [h1]
        simp [h2]
  · -- Gmail: malformed inputs fall back to the default entry.
    intro c h
    unfold convertToGmailColor
    split
    · next kv hf =>
      exfalso
      have hkey : kv.1 = jsToLower c := by simpa using List.find?_some hf
      obtain ⟨hst, _, hlen⟩ := gmailPalette_keys kv (List.mem_of_find?_eq_some hf)
      rw [hkey] at hst hlen
      rcases h with h | h
      · rw [h] at hst
        exact absurd hst (by decide)
      · exact h hlen
    · next hf =>
      split
      · next hc =>
        exfalso
        rcases h with h | h
        · rw [h] at hc
          simp at hc
        · refine h ?_
          have hc2 := hc
          simp only [Bool.and_eq_true] at hc2
          simpa using hc2.2
      · rfl
  · -- Microsoft: the result is a palette member for non-preset inputs.
    intro s hpre
    by_cases hempty : s = ""
    · subst hempty
      exact ⟨"#ff0000", by decide⟩
    · rw [show convertColorToPreset (some s) =
          (if s = "" then "preset0"
           else if jsStartsWith s "preset" then s
           else
            match msColorMap.find? (fun kv => kv.1 == jsToLower s) with
            | some kv => kv.2
            | none =>
              if jsStartsWith (jsToLower s) "#" && (jsToLower s).length == 7 then
                match rgbOfJs (jsToLower s) with
                | some targetRgb =>
                  (msColorMap.foldl (nearestStep (fun _ => true) targetRgb)
                    ("preset0", none)).1
                | none => "preset0"
              else "preset0") from rfl,
        if_neg hempty, if_neg (by rw [hpre]; decide)]
      split
      · next kv hf => exact ⟨kv.1, List.mem_of_find?_eq_some hf⟩
      · next hf =>
        split
        · split
          · next t hr =>
            rcases foldl_nearest_pick (fun _ => true) t msColorMap
              ("preset0", none) with h | ⟨k, kc, hmem, _, _⟩
            · rw [h]
              exact ⟨"#ff0000", by decide⟩
            · exact ⟨k, hmem⟩
          · exact ⟨"#ff0000", by decide⟩
        · exact ⟨"#ff0000", by decide⟩
  · -- Microsoft: nearest match for well-formed non-preset inputs.
    intro s t hpre h3 h1 h2
    have hempty : s ≠ "" := by
      intro he
      rw [he] at h1
      exact absurd h1 (by decide)
    rw [show convertColorToPreset (some s) =
        (if s = "" then "preset0"
         else if jsStartsWith s "preset" then s
         else
          match msColorMap.find? (fun kv => kv.1 == jsToLower s) with
          | some kv => kv.2
          | none =>
            if jsStartsWith (jsToLower s) "#" && (jsToLower s).length == 7 then
              match rgbOfJs (jsToLower s) with
              | some targetRgb =>
                (msColorMap.foldl (nearestStep (fun _ => true) targetRgb)
                  ("preset0", none)).1
              | none => "preset0"
            else "preset0") from rfl,
      if_neg hempty, if_neg (by rw [hpre]; decide)]
    split
    · next kv hf =>
      have hkey : kv.1 = jsToLower s := by simpa using List.find?_some hf
      refine ⟨kv.1, t, List.mem_of_find?_eq_some hf, by rw [hkey]; exact h3,
        fun k2 v2 kc2 _ _ => ?_⟩
      rw [dist2_self]
      exact dist2_nonneg t kc2
    · next hf =>
      split
      · split
        · next t2 hr =>
          have ht : t2 = t := by
            rw [h3] at hr
            exact (Option.some.inj hr).symm
          rw [ht]
          exact nearest_of_fold (fun _ => true) t msColorMap "preset0"
            (fun kv hm => ⟨rfl, (msColorMap_keys kv hm).1⟩)
            "#ff0000" "preset0" (by decide)
        · next hr =>
          rw [h3] at hr
          exact Option.noConfusion hr
      · next hc =>
        exfalso
        apply hc
        rw [h1]
        simp [h2]
  · -- Microsoft: strings starting with "preset" pass through unchanged.
    intro s hempty hpre
    rw [show convertColorToPreset (some s) =
        (if s = "" then "preset0"
         else if jsStartsWith s "preset" then s
         else
          match msColorMap.find? (fun kv => kv.1 == jsToLower s) with
          | some kv => kv.2
          | none =>
            if jsStartsWith (jsToLower s) "#" && (jsToLower s).length == 7 then
              match rgbOfJs (jsToLower s) with
              | some targetRgb =>
                (msColorMap.foldl (nearestStep (fun _ => true) targetRgb)
                  ("preset0", none)).1
              | none => "preset0"
            else "preset0") from rfl,
      if_neg hempty, if_pos hpre]
  · -- Microsoft: malformed non-preset inputs fall back to preset0.
    intro s hpre h
    by_cases hempty : s = ""
    · subst hempty
      rfl
    · rw [show convertColorToPreset (some s) =
          (if s = "" then "preset0"
           else if jsStartsWith s "preset" then s
           else
            match msColorMap.find? (fun kv => kv.1 == jsToLower s) with
            | some kv => kv.2
            | none =>
              if jsStartsWith (jsToLower s) "#" && (jsToLower s).length == 7 then
                match rgbOfJs (jsToLower s) with
                | some targetRgb =>
                  (msColorMap.foldl (nearestStep (fun _ => true) targetRgb)
                    ("preset0", none)).1
                | none => "preset0"
              else "preset0") from rfl,
        if_neg hempty, if_neg (by rw [hpre]; decide)]
      split
      · next kv hf =>
        exfalso
        have hkey : kv.1 = jsToLower s := by simpa using List.find?_some hf
        obtain ⟨_, hst, hlen⟩ := msColorMap_keys kv (List.mem_of_find?_eq_some hf)
        rw [hkey] at hst hlen
        rcases h with h | h
        · rw [h] at hst
          exact absurd hst (by decide)
        · exact h hlen
      · next hf =>
        split
        · next hc =>
          exfalso
          rcases h with h | h
          · rw [h] at hc
            simp at hc
          · refine h ?_
            have hc2 := hc
            simp only [Bool.and_eq_true] at hc2
            simpa using hc2.2
        · rfl

/-- Claim C8 (witness): the amended theorem evaluated at concrete in-palette
and out-of-palette inputs for each converter. -/
theorem C8_witness :
    (∃ k, (k, convertToGmailColor "#123456") ∈ gmailColorPalette) ∧
    isNearestIn gmailColorPalette ⟨18, 52, 86⟩ (convertToGmailColor "#123456") ∧
    convertToGmailColor "red" = gmailDefaultColor ∧
    (∃ k, (k, convertColorToPreset (some "zzz")) ∈ msColorMap) ∧
    isNearestIn msColorMap ⟨18, 52, 86⟩ (convertColorToPreset (some "#123456")) ∧
    convertColorToPreset (some "preset5") = "preset5" ∧
    convertColorToPreset (some "blue") = "preset0" :=
  ⟨C8_amended.1 "#123456",
   C8_amended.2.1 "#123456" ⟨18, 52, 86⟩ (by decide) (by decide) (by decide),
   C8_amended.2.2.1 "red" (Or.inl (by decide)),
   C8_amended.2.2.2.2.1 "zzz" (by decide),
   C8_amended.2.2.2.2.2.1 "#123456" ⟨18, 52, 86⟩ (by decide) (by decide)
     (by decide) (by decide),
   C8_amended.2.2.2.2.2.2.1 "preset5" (by decide) (by decide),
   C8_amended.2.2.2.2.2.2.2.1 "blue" (by decide) (Or.inl (by decide))⟩

/-- Claim C9 (counterexample): the Microsoft adapter degrades an absent
sender to an address whose email is the empty string, so a converted message
can carry from-addresses with an empty email field, contradicting the
non-emptiness invariant. -/
theorem C9_counterexample :
    (convertGraphMessage { fromRecipient := none }).fromAddr =
      some { email := "", name := none } := rfl

/-- Claim C9 (amended): on the Gmail adapter an unstructured header string
(one the bracket regular expression does not match) degrades to an address
whose email is the trimmed raw text, which is non-empty whenever the trimmed
header is non-empty; but whitespace-only headers trim to an empty email, and
the Microsoft adapter converts an absent recipient to an address with an
empty email, so the global non-emptiness invariant does not hold. -/
theorem C9_amended :
    (∀ s : String, emailAngleMatch s = none → s ≠ "" →
      parseEmailAddress (some s) = some { email := jsTrim s, name := none }) ∧
    (∀ s : String, emailAngleMatch s = none → jsTrim s ≠ "" →
      ∀ a : EmailAddress, parseEmailAddress (some s) = some a → a.email ≠ "") ∧
    (convertFromGraphRecipient none = { email := "", name := none }) ∧
    (∀ g : GraphMsg, g.fromRecipient = none →
      (convertGraphMessage g).fromAddr = some { email := "", name := none }) := by
  refine ⟨fun s h hne => ?_, fun s h hne a ha => ?_, rfl, fun g hg => ?_⟩
  · simp only [parseEmailAddress, if_neg hne, h]
  · have hs : s ≠ "" := fun he => hne (by rw [he]; rfl)
    simp only [parseEmailAddress, if_neg hs, h, Option.some.injEq] at ha
    rw [← ha]
    exact hne
  · rw [show (convertGraphMessage g).fromAddr =
      some (convertFromGraphRecipient g.fromRecipient) from rfl, hg]
    rfl

/-- Claim C9 (witness): the amended theorem evaluated at a concrete
unstructured header and at a Graph message with an absent sender. -/
theorem C9_witness :
    parseEmailAddress (some "alice at example") =
      some { email := jsTrim "alice at example", name := none } ∧
    (convertGraphMessage { fromRecipient := none, subject := "s" }).fromAddr =
      some { email := "", name := none } :=
  ⟨C9_amended.1 "alice at example" (by decide) (by decide),
   C9_amended.2.2.2 { fromRecipient := none, subject := "s" } rfl⟩

/-- Claim C10 (confirmed): every message converted by the Gmail adapter has
isRead equal to the negation of UNREAD membership in the backend record's
label-id list (true when the list is absent) and labels equal to that list
or the empty list when absent; and every message returned by listEmails is
the conversion of a record refetched through getEmail. -/
theorem C10_theorem :
    (∀ g : GmailMsg,
      (convertGmailMessage g).isRead =
        some (!((g.labelIds.getD []).contains "UNREAD")) ∧
      (convertGmailMessage g).labels = some (g.labelIds.getD [])) ∧
    (∀ g : GmailMsg, g.labelIds = none →
      (convertGmailMessage g).isRead = some true) ∧
    (∀ (summaryIds : List (Option String)) (fetch : String → GmailMsg)
        (m : EmailMessage), m ∈ gmailListEmails summaryIds fetch →
      ∃ i, m = convertGmailMessage (fetch i)) := by
  refine ⟨fun g => ?_, fun g h => ?_, fun summaryIds fetch m hm => ?_⟩
  · cases h : g.labelIds with
    | none => exact ⟨by simp [convertGmailMessage, h], by simp [convertGmailMessage, h]⟩
    | some ls => exact ⟨by simp [convertGmailMessage, h], by simp [convertGmailMessage, h]⟩
  · simp [convertGmailMessage, h]
  · unfold gmailListEmails at hm
    rw [List.mem_map] at hm
    obtain ⟨i, _, hmi⟩ := hm
    exact ⟨i, hmi.symm⟩

/-- Claim C10 (witness): the theorem evaluated at a concrete backend record
without a label list and at a concrete one-element listing. -/
theorem C10_witness :
    (convertGmailMessage ({ labelIds := none } : GmailMsg)).isRead = some true ∧
    (∃ _ : String, convertGmailMessage ({ labelIds := some ["INBOX"] } : GmailMsg) =
      convertGmailMessage ({ labelIds := some ["INBOX"] } : GmailMsg)) := by
  constructor
  · exact C10_theorem.2.1 _ rfl
  · exact C10_theorem.2.2 [some "a"]
      (fun _ => ({ labelIds := some ["INBOX"] } : GmailMsg))
      (convertGmailMessage ({ labelIds := some ["INBOX"] } : GmailMsg))
      (by
        rw [show gmailListEmails [some "a"]
            (fun _ => ({ labelIds := some ["INBOX"] } : GmailMsg)) =
            [convertGmailMessage ({ labelIds := some ["INBOX"] } : GmailMsg)] from rfl]
        exact List.mem_singleton.mpr rfl)

end Supermail
